import Mathlib

/-!
Verification of the Database GURU AI client.

Shallow embedding of the generation pipeline and history/session state
machine of the repository (files `src/app.component.ts` and the Gemini
service file).  External collaborators (the remote model endpoint, the
JSON codec of the browser, local storage, the clock) are modelled as
explicit parameters gathered in an `Env` record; everything else is
translated directly from the TypeScript source.
-/

namespace DbGuru

/-- The `Feature` union type of `app.component.ts`
(`'NL-to-SQL' | 'Optimize Query' | 'Design Schema' | 'Explain SQL' | 'Analyze & Suggest'`). -/
inductive Feature where
  | nlToSql
  | optimizeQuery
  | designSchema
  | explainSql
  | analyzeSuggest
deriving DecidableEq, Repr

/-- The string literal each `Feature` value denotes in the source. -/
def Feature.name : Feature → String
  | .nlToSql => "NL-to-SQL"
  | .optimizeQuery => "Optimize Query"
  | .designSchema => "Design Schema"
  | .explainSql => "Explain SQL"
  | .analyzeSuggest => "Analyze & Suggest"

/-- One element of `OptimizationResult.recommendations` (gemini service). -/
structure Recommendation where
  title : String
  description : String
deriving DecidableEq, Repr

/-- The `OptimizationResult` interface of the gemini service. -/
structure OptimizationResult where
  summary : String
  recommendations : List Recommendation
  optimizedQuery : String
deriving DecidableEq, Repr

/-- The `HistoryItem` interface of `app.component.ts`.  The nullable
`optimizationResult` field becomes an `Option`; `id` (a `Date.now()`
millisecond count) becomes a `Nat`. -/
structure HistoryItem where
  id : Nat
  feature : Feature
  db : String
  userInput : String
  schemaContext : String
  uploadedFileName : String
  output : String
  optimizationResult : Option OptimizationResult
deriving DecidableEq, Repr

/-- `Omit<HistoryItem, 'id'>`, the argument type of `addToHistory`. -/
structure HistoryData where
  feature : Feature
  db : String
  userInput : String
  schemaContext : String
  uploadedFileName : String
  output : String
  optimizationResult : Option OptimizationResult
deriving DecidableEq, Repr

/-- `{ ...item, id: Date.now() }` in `addToHistory`. -/
def HistoryData.withId (d : HistoryData) (id : Nat) : HistoryItem :=
  { id := id, feature := d.feature, db := d.db, userInput := d.userInput,
    schemaContext := d.schemaContext, uploadedFileName := d.uploadedFileName,
    output := d.output, optimizationResult := d.optimizationResult }

/-- The signals of `AppComponent` that the generation pipeline and the
history store read or write, plus the local-storage slot under the key
`db_guru_history` (`none` models an absent key).  Signals that no
modelled operation touches (`copied`, `isContextVisible`) are omitted. -/
structure AppState where
  selectedFeature : Feature
  selectedDb : String
  schemaContext : String
  uploadedFileName : String
  userInput : String
  output : String
  optimizationResult : Option OptimizationResult
  loading : Bool
  error : Option String
  history : List HistoryItem
  storage : Option String
deriving DecidableEq, Repr

/-- External world of one `generate` call: whether the service
constructor obtained an API key, what the remote stream delivers, what
the structured call returns, and the JSON codec of the browser.
`streamChunks` are the fragments delivered before end-of-stream or
before the transport failure signalled by `streamFails`;
`structuredText` is `none` when the structured request itself fails at
transport level, otherwise the text of the single response. -/
structure Env where
  initialized : Bool
  streamChunks : List String
  streamFails : Bool
  structuredText : Option String
  parseOpt : String → Option OptimizationResult
  stringifyHist : List HistoryItem → String
  parseHist : String → Option (List HistoryItem)

/-- `s.trim() === ''` in JavaScript: every character is whitespace.
Only the emptiness of the trimmed string is ever used by the source
(`!this.userInput().trim()` and `schemaContext.trim() ? … : ''`). -/
def isBlank (s : String) : Bool :=
  s.data.all Char.isWhitespace

/-- JavaScript `a.includes(b)`: `b` occurs as a contiguous substring. -/
def strIncludes (s pat : String) : Bool :=
  decide (pat.data <:+: s.data)

/-- The `contextPreamble` local of `GeminiService.getPrompts`. -/
def contextPreamble (schemaContext : String) : String :=
  if isBlank schemaContext then ""
  else "You MUST use the following provided context. Do not invent tables, columns, or data structures that are not in this context.\n\nCONTEXT:\n```\n" ++ schemaContext ++ "\n```\n\n"

/-- Return type of `getPrompts`.  The `responseSchema` literal (a
configuration object for the remote API, present only for Optimize
Query) is abstracted to the flag `hasSchema`; no claim depends on its
content. -/
structure Prompts where
  systemInstruction : String
  userPrompt : String
  hasSchema : Bool
deriving DecidableEq, Repr

/-- `GeminiService.getPrompts`, the Prompt Builder.  Each branch
transcribes the template literals of the source with `${…}` splices
replaced by `++`. -/
def getPrompts (feature db input schemaContext : String) : Prompts :=
  let cp := contextPreamble schemaContext
  if feature = "NL-to-SQL" then
    { systemInstruction := "You are a world-class database administrator and SQL expert specializing in " ++ db ++ ". Your sole purpose is to convert natural language text into a single, syntactically perfect, and highly efficient " ++ db ++ " SQL query based on the provided context. You ONLY output raw SQL code. You do not provide explanations, comments, or any text other than the SQL query itself. You do not use markdown code blocks.",
      userPrompt := cp ++ "Convert the following request into a " ++ db ++ " SQL query: \"" ++ input ++ "\"",
      hasSchema := false }
  else if feature = "Optimize Query" then
    { systemInstruction := "You are a world-class database performance tuning specialist for " ++ db ++ ". Your task is to analyze a SQL query, using the provided schema context if available, and return a JSON object with your findings. You must provide a concise summary, a list of actionable recommendations with titles and descriptions, and the optimized version of the query.",
      userPrompt := cp ++ "Please analyze and suggest optimizations for this " ++ db ++ " SQL query, then return the results in the required JSON format:\n\n" ++ input,
      hasSchema := true }
  else if feature = "Design Schema" then
    { systemInstruction := "You are a world-class database architect specializing in " ++ db ++ ". Your task is to design a well-structured, normalized (3NF) database schema based on a set of requirements. You will provide the complete Data Definition Language (DDL) statements for " ++ db ++ ", including tables, columns with appropriate data types, primary keys, foreign keys, and necessary indexes. You ONLY output raw SQL DDL code. You do not provide explanations (except as SQL comments) or any text other than the SQL DDL. You do not use markdown code blocks.",
      userPrompt := "Design a " ++ db ++ " schema for the following requirements: \"" ++ input ++ "\"",
      hasSchema := false }
  else if feature = "Explain SQL" then
    { systemInstruction := "You are a world-class database administrator and SQL expert specializing in " ++ db ++ ". Your purpose is to explain a given SQL query in a clear, concise, and easy-to-understand manner, using the provided schema for context. Break down the query into its logical parts and explain what each part does and how they work together. Your explanation should be helpful for both beginners and experienced developers.",
      userPrompt := cp ++ "Please explain this " ++ db ++ " SQL query step-by-step:\n\n" ++ input,
      hasSchema := false }
  else if feature = "Analyze & Suggest" then
    { systemInstruction := "You are a world-class data analyst and database architect for " ++ db ++ ". Your primary goal is to provide precise, actionable, and highly relevant suggestions. Before you provide a final answer, it is critical that you first evaluate the user\x27s request and the provided context. If the request is vague, ambiguous, or lacks specific details, you MUST ask clarifying questions. Similarly, if the provided context (schema, data, etc.) is insufficient to give a high-quality, accurate answer, you MUST ask for more information. Do not make assumptions. Engage in a dialogue with the user to ensure you have all the necessary details before offering your expert analysis. Format your final response using markdown for readability.",
      userPrompt := cp ++ "Based on the provided context, please analyze and provide suggestions for the following request: \"" ++ input ++ "\"",
      hasSchema := false }
  else
    { systemInstruction := "You are a helpful assistant.",
      userPrompt := input,
      hasSchema := false }

/-- `GeminiService.generateStream` observed at the consumer: the list of
fragments actually yielded, paired with `some message` when the async
generator ends by throwing.  An uninitialized service throws before
yielding anything; a transport failure is caught and re-thrown with the
fixed message of the source, after the already-delivered fragments. -/
def generateStream (env : Env) : List String × Option String :=
  if env.initialized = false then
    ([], some "Gemini service is not initialized.")
  else if env.streamFails then
    (env.streamChunks, some "Failed to generate streaming response from AI.")
  else
    (env.streamChunks, none)

/-- `GeminiService.generateStructured`.  The `try` block covers the
remote call, the emptiness check and `JSON.parse`; its `catch` replaces
every inner failure message by the fixed string
`Failed to parse structured response from AI.`.  The uninitialized
check sits before the `try` and escapes unwrapped. -/
def generateStructured (env : Env) : Except String OptimizationResult :=
  if env.initialized = false then
    Except.error "Gemini service is not initialized."
  else
    let tryBlock : Except String OptimizationResult :=
      match env.structuredText with
      | none => Except.error "remote call failed"
      | some text =>
        if text = "" then Except.error "Received an empty response from the AI."
        else
          match env.parseOpt text with
          | some r => Except.ok r
          | none => Except.error "SyntaxError: JSON parse failed"
    match tryBlock with
    | Except.ok r => Except.ok r
    | Except.error _ => Except.error "Failed to parse structured response from AI."

/-- The `catch` branch of `AppComponent.generate` (lines 173-182):
translates a raw failure message into the user-facing one. -/
def displayError (rawMessage : String) : String :=
  if strIncludes rawMessage "token count exceeds" || strIncludes rawMessage "400" then
    "Error: The provided context is too large. Please use a smaller file or reduce the amount of text in the context field."
  else
    "An error occurred while communicating with the AI: " ++ rawMessage

/-- The output buffer after `for await (const chunk of stream)
this.output.update(current => current + chunk)`. -/
def concatChunks (chunks : List String) : String :=
  chunks.foldl (fun acc c => acc ++ c) ""

/-- `AppComponent.saveHistoryToStorage`: serializes the whole history
list into the single storage slot. -/
def saveHistoryToStorage (env : Env) (s : AppState) : AppState :=
  { s with storage := some (env.stringifyHist s.history) }

/-- `AppComponent.addToHistory`: assigns `Date.now()` (the `now`
parameter) as id, prepends, persists. -/
def addToHistory (env : Env) (now : Nat) (d : HistoryData) (s : AppState) : AppState :=
  saveHistoryToStorage env { s with history := d.withId now :: s.history }

/-- `AppComponent.clearHistory`: behind the `confirm` dialog, empties
the list and removes the storage slot. -/
def clearHistory (confirmed : Bool) (s : AppState) : AppState :=
  if confirmed then { s with history := [], storage := none } else s

/-- `AppComponent.loadHistoryFromStorage`: a present slot is parsed,
with the `catch` resetting to `[]`; an absent slot leaves the list as
it is. -/
def loadHistoryFromStorage (env : Env) (s : AppState) : AppState :=
  match s.storage with
  | none => s
  | some str =>
    match env.parseHist str with
    | some h => { s with history := h }
    | none => { s with history := [] }

/-- `AppComponent.generate`.  The guard, the clearing of the transient
fields, the two call paths, the history append on success, the error
translation on failure and the `finally` resetting `loading` are
translated branch by branch from lines 131-186 of the source. -/
def generate (env : Env) (now : Nat) (s : AppState) : AppState :=
  if isBlank s.userInput || s.loading then s
  else
    let s1 : AppState :=
      { s with loading := true, output := "", optimizationResult := none, error := none }
    if s.selectedFeature = Feature.optimizeQuery then
      match generateStructured env with
      | Except.ok result =>
        let s2 : AppState := { s1 with optimizationResult := some result }
        let s3 := addToHistory env now
          { feature := s.selectedFeature, db := s.selectedDb, userInput := s.userInput,
            schemaContext := s.schemaContext, uploadedFileName := s.uploadedFileName,
            output := "", optimizationResult := some result } s2
        { s3 with loading := false }
      | Except.error msg =>
        { s1 with error := some (displayError msg), loading := false }
    else
      match generateStream env with
      | (chunks, none) =>
        let out := concatChunks chunks
        let s2 : AppState := { s1 with output := out }
        let s3 := addToHistory env now
          { feature := s.selectedFeature, db := s.selectedDb, userInput := s.userInput,
            schemaContext := s.schemaContext, uploadedFileName := s.uploadedFileName,
            output := out, optimizationResult := none } s2
        { s3 with loading := false }
      | (chunks, some msg) =>
        { s1 with output := concatChunks chunks,
                  error := some (displayError msg), loading := false }

/-- One user-driven generation: the selections and input typed before
pressing generate, the external world of the call, and the clock
reading `Date.now()` takes inside `addToHistory`. -/
structure GenEvent where
  feature : Feature
  db : String
  input : String
  schema : String
  env : Env
  now : Nat

/-- Set the selections of the event, then run `generate`. -/
def applyEvent (e : GenEvent) (s : AppState) : AppState :=
  generate e.env e.now
    { s with selectedFeature := e.feature, selectedDb := e.db,
             userInput := e.input, schemaContext := e.schema }

/-- A sequence of user-driven generations. -/
def runEvents (es : List GenEvent) (s : AppState) : AppState :=
  es.foldl (fun s e => applyEvent e s) s

/-- The event passes the input guard and its call path succeeds. -/
def eventSucceeds (e : GenEvent) : Bool :=
  !(isBlank e.input) &&
    (if e.feature = Feature.optimizeQuery then
      match generateStructured e.env with
      | Except.ok _ => true
      | Except.error _ => false
    else
      e.env.initialized && !e.env.streamFails)

/-- The per-entry invariant stated by the spec (section 3): exactly one
of `output` / `optimizationResult` is populated, determined by the
feature. -/
def specEntryInvariant (h : HistoryItem) : Prop :=
  if h.feature = Feature.optimizeQuery then
    h.optimizationResult ≠ none ∧ h.output = ""
  else
    h.output ≠ "" ∧ h.optimizationResult = none

/-- A concrete external world: an initialized service whose stream
delivers two fragments and succeeds. -/
def sampleEnv : Env :=
  { initialized := true, streamChunks := ["SELECT", " 1;"], streamFails := false,
    structuredText := none, parseOpt := fun _ => none,
    stringifyHist := fun _ => "[]", parseHist := fun _ => none }

/-- A concrete idle session with empty history. -/
def sampleState : AppState :=
  { selectedFeature := Feature.nlToSql, selectedDb := "MySQL", schemaContext := "",
    uploadedFileName := "", userInput := "hi", output := "",
    optimizationResult := none, loading := false, error := none,
    history := [], storage := none }

/-- First of two concrete user-driven generations. -/
def sampleEvent1 : GenEvent :=
  { feature := Feature.nlToSql, db := "MySQL", input := "q1", schema := "",
    env := sampleEnv, now := 1 }

/-- Second of two concrete user-driven generations. -/
def sampleEvent2 : GenEvent :=
  { feature := Feature.explainSql, db := "MySQL", input := "q2", schema := "",
    env := sampleEnv, now := 2 }

/-- A string is a substring of any string it is appended to. -/
theorem strIncludes_append_left (p s : String) : strIncludes (p ++ s) s = true := by
  simp only [strIncludes, decide_eq_true_eq]
  exact ⟨p.data, [], by simp⟩

/-- A string equal to `a ++ (pat ++ b)` contains `pat`. -/
theorem strIncludes_of_eq_append (s a b pat : String) (hq : s = a ++ (pat ++ b)) :
    strIncludes s pat = true := by
  subst hq
  simp only [strIncludes, decide_eq_true_eq]
  exact ⟨a.data, b.data, by simp⟩

/-- The empty string is blank. -/
theorem isBlank_empty : isBlank "" = true := by decide

/-- Anything of the form `contextPreamble ctx ++ t` with non-blank
`ctx` contains the raw context verbatim, because the preamble embeds
it between two fixed pieces of text. -/
theorem strIncludes_via_preamble (ctx s t : String) (h : isBlank ctx = false)
    (hs : s = contextPreamble ctx ++ t) : strIncludes s ctx = true := by
  apply strIncludes_of_eq_append s
    "You MUST use the following provided context. Do not invent tables, columns, or data structures that are not in this context.\n\nCONTEXT:\n```\n"
    ("\n```\n\n" ++ t)
  rw [hs]
  simp [contextPreamble, h, String.append_assoc]

/-- C6: when the generating flag is already set, or the user input is
empty after trimming, `generate` leaves every session field (output,
error, optimizationResult, loading, history, storage and selections)
unchanged: the whole state is returned as it was, and no request is
modelled as issued. -/
theorem claim6_generate_noop (env : Env) (now : Nat) (s : AppState)
    (h : s.loading = true ∨ isBlank s.userInput = true) :
    generate env now s = s := by
  rcases h with h | h <;> simp [generate, h]

/-- C6 witness: a concrete in-flight state is untouched by `generate`. -/
theorem claim6_generate_noop_instance :
    generate sampleEnv 5 { sampleState with loading := true } =
      { sampleState with loading := true } :=
  claim6_generate_noop sampleEnv 5 { sampleState with loading := true } (Or.inl rfl)

/-- C7: a failure message containing `token count exceeds` or `400` is
translated into the dedicated context-too-large message; any other
failure message is wrapped into the generic message, which retains the
original text as a substring. -/
theorem claim7_error_translation (raw : String) :
    ((strIncludes raw "token count exceeds" = true ∨ strIncludes raw "400" = true) →
      displayError raw =
        "Error: The provided context is too large. Please use a smaller file or reduce the amount of text in the context field.") ∧
    (strIncludes raw "token count exceeds" = false → strIncludes raw "400" = false →
      displayError raw = "An error occurred while communicating with the AI: " ++ raw ∧
      strIncludes (displayError raw) raw = true) := by
  constructor
  · intro h
    rcases h with h | h <;> simp [displayError, h]
  · intro h1 h2
    have hd : displayError raw = "An error occurred while communicating with the AI: " ++ raw := by
      simp [displayError, h1, h2]
    refine ⟨hd, ?_⟩
    rw [hd]
    exact strIncludes_append_left _ _

/-- C7 witness: both branches of the translation at concrete messages. -/
theorem claim7_error_translation_instance :
    displayError "400" =
      "Error: The provided context is too large. Please use a smaller file or reduce the amount of text in the context field." ∧
    displayError "boom" = "An error occurred while communicating with the AI: " ++ "boom" :=
  ⟨(claim7_error_translation "400").1 (Or.inr (by decide)),
   ((claim7_error_translation "boom").2 (by decide) (by decide)).1⟩

/-- C8: a confirmed clear-history empties the in-memory list, removes
the persisted slot, and a subsequent load from storage yields an empty
history list. -/
theorem claim8_clear_history (env : Env) (s : AppState) :
    (clearHistory true s).history = [] ∧
    (clearHistory true s).storage = none ∧
    (loadHistoryFromStorage env (clearHistory true s)).history = [] := by
  simp [clearHistory, loadHistoryFromStorage]

/-- C9: a transport-level failure during streaming surfaces the
stream-failure condition (wrapped into the generic user-facing
message), the output buffer retains every fragment delivered before
the failure, and no history entry is appended. -/
theorem claim9_stream_failure (env : Env) (now : Nat) (s : AppState)
    (hi : env.initialized = true) (hf : env.streamFails = true)
    (hb : isBlank s.userInput = false) (hl : s.loading = false)
    (hq : s.selectedFeature ≠ Feature.optimizeQuery) :
    (generateStream env).2 = some "Failed to generate streaming response from AI." ∧
    (generate env now s).output = concatChunks env.streamChunks ∧
    (generate env now s).error =
      some ("An error occurred while communicating with the AI: " ++
        "Failed to generate streaming response from AI.") ∧
    (generate env now s).history = s.history := by
  have hstream : generateStream env =
      (env.streamChunks, some "Failed to generate streaming response from AI.") := by
    simp [generateStream, hi, hf]
  have hdisp : displayError "Failed to generate streaming response from AI." =
      "An error occurred while communicating with the AI: " ++
        "Failed to generate streaming response from AI." := by
    simp [displayError]
    decide
  refine ⟨by rw [hstream], ?_, ?_, ?_⟩ <;>
    simp [generate, hb, hl, hq, hstream, hdisp]

/-- C9 witness: a concrete failing stream after two fragments. -/
theorem claim9_stream_failure_instance :
    (generateStream { sampleEnv with streamFails := true }).2 =
      some "Failed to generate streaming response from AI." ∧
    (generate { sampleEnv with streamFails := true } 5 sampleState).output =
      concatChunks ["SELECT", " 1;"] ∧
    (generate { sampleEnv with streamFails := true } 5 sampleState).error =
      some ("An error occurred while communicating with the AI: " ++
        "Failed to generate streaming response from AI.") ∧
    (generate { sampleEnv with streamFails := true } 5 sampleState).history =
      sampleState.history :=
  claim9_stream_failure { sampleEnv with streamFails := true } 5 sampleState
    rfl rfl (by decide) rfl (by decide)

/-- C10: for a non-Optimize-Query feature, a stream that completes
successfully after yielding zero fragments still appends a history
entry, whose output is the empty string and whose optimizationResult
is `none`. -/
theorem claim10_empty_stream_appends (env : Env) (now : Nat) (s : AppState)
    (hb : isBlank s.userInput = false) (hl : s.loading = false)
    (hq : s.selectedFeature ≠ Feature.optimizeQuery)
    (hi : env.initialized = true) (hf : env.streamFails = false)
    (hc : env.streamChunks = []) :
    (generate env now s).history =
      { id := now, feature := s.selectedFeature, db := s.selectedDb,
        userInput := s.userInput, schemaContext := s.schemaContext,
        uploadedFileName := s.uploadedFileName, output := "",
        optimizationResult := none } :: s.history := by
  simp [generate, hb, hl, hq, hi, hf, hc, generateStream, addToHistory,
    saveHistoryToStorage, HistoryData.withId, concatChunks]

/-- C10 witness: a concrete successful zero-fragment generation. -/
theorem claim10_empty_stream_appends_instance :
    (generate { sampleEnv with streamChunks := [] } 5 sampleState).history =
      { id := 5, feature := Feature.nlToSql, db := "MySQL",
        userInput := "hi", schemaContext := "", uploadedFileName := "",
        output := "", optimizationResult := none } :: sampleState.history :=
  claim10_empty_stream_appends { sampleEnv with streamChunks := [] } 5 sampleState
    (by decide) rfl (by decide) rfl rfl rfl

/-- C1 counterexample: a successful generation under a non-Optimize
feature whose stream yields no fragments creates a history entry with
empty `output`, violating the exactly-one-populated invariant as
stated (it demands a non-empty `output` for such features). -/
theorem claim1_counterexample :
    (generate { sampleEnv with streamChunks := [] } 5 sampleState).history =
      [{ id := 5, feature := Feature.nlToSql, db := "MySQL",
         userInput := "hi", schemaContext := "", uploadedFileName := "",
         output := "", optimizationResult := none }] ∧
    ¬ specEntryInvariant
      { id := 5, feature := Feature.nlToSql, db := "MySQL",
        userInput := "hi", schemaContext := "", uploadedFileName := "",
        output := "", optimizationResult := none } := by
  constructor
  · rfl
  · simp [specEntryInvariant]

/-- C1 amended: every entry created by a successful generation has at
most one populated result field, determined by the feature: Optimize
Query sets `optimizationResult` and leaves `output` empty; every other
feature leaves `optimizationResult` unset and sets `output` to the
concatenation of the streamed fragments, which may itself be empty. -/
theorem claim1_amended (env : Env) (now : Nat) (s : AppState)
    (hb : isBlank s.userInput = false) (hl : s.loading = false) :
    (∀ r, s.selectedFeature = Feature.optimizeQuery →
      generateStructured env = Except.ok r →
      (generate env now s).history =
        { id := now, feature := s.selectedFeature, db := s.selectedDb,
          userInput := s.userInput, schemaContext := s.schemaContext,
          uploadedFileName := s.uploadedFileName, output := "",
          optimizationResult := some r } :: s.history) ∧
    (s.selectedFeature ≠ Feature.optimizeQuery → env.initialized = true →
      env.streamFails = false →
      (generate env now s).history =
        { id := now, feature := s.selectedFeature, db := s.selectedDb,
          userInput := s.userInput, schemaContext := s.schemaContext,
          uploadedFileName := s.uploadedFileName,
          output := concatChunks env.streamChunks,
          optimizationResult := none } :: s.history) := by
  constructor
  · intro r hq hok
    simp [generate, hb, hl, hq, hok, addToHistory, saveHistoryToStorage,
      HistoryData.withId]
  · intro hq hi hf
    simp [generate, hb, hl, hq, hi, hf, generateStream, addToHistory,
      saveHistoryToStorage, HistoryData.withId]

/-- C1 amended witness: a concrete two-fragment successful stream. -/
theorem claim1_amended_instance :
    (generate sampleEnv 7 sampleState).history =
      { id := 7, feature := Feature.nlToSql, db := "MySQL",
        userInput := "hi", schemaContext := "", uploadedFileName := "",
        output := concatChunks ["SELECT", " 1;"],
        optimizationResult := none } :: sampleState.history :=
  (claim1_amended sampleEnv 7 sampleState (by decide) rfl).2 (by decide) rfl rfl

/-- C2 counterexample: a structured call whose response text is empty
does not surface the empty-response condition: the `catch` around the
emptiness check replaces the thrown message by the malformed-response
one. -/
theorem claim2_counterexample :
    generateStructured { sampleEnv with structuredText := some "" } =
      Except.error "Failed to parse structured response from AI." ∧
    "Failed to parse structured response from AI." ≠
      "Received an empty response from the AI." := by
  exact ⟨rfl, by decide⟩

/-- C2 amended: a structured call whose response text is empty or not
parseable JSON fails, in both cases with the malformed-structured-
response condition (the internal empty-response error is swallowed by
the surrounding catch), and no history entry is appended. -/
theorem claim2_amended (env : Env) (now : Nat) (s : AppState) (t : String)
    (hi : env.initialized = true) (ht : env.structuredText = some t)
    (hfail : t = "" ∨ env.parseOpt t = none) :
    generateStructured env =
      Except.error "Failed to parse structured response from AI." ∧
    (s.selectedFeature = Feature.optimizeQuery →
      (generate env now s).history = s.history) := by
  have herr : generateStructured env =
      Except.error "Failed to parse structured response from AI." := by
    rcases hfail with hfail | hfail
    · subst hfail
      simp [generateStructured, hi, ht]
    · by_cases he : t = ""
      · subst he
        simp [generateStructured, hi, ht]
      · simp [generateStructured, hi, ht, he, hfail]
  refine ⟨herr, ?_⟩
  intro hq
  by_cases hb : isBlank s.userInput
  · simp [generate, hb]
  · by_cases hl : s.loading
    · simp [generate, hl]
    · simp [generate, hb, hl, hq, herr]

/-- C2 amended witness: concrete empty and malformed responses. -/
theorem claim2_amended_instance :
    (generateStructured { sampleEnv with structuredText := some "" } =
      Except.error "Failed to parse structured response from AI." ∧
    (generate { sampleEnv with structuredText := some "" } 3
        { sampleState with selectedFeature := Feature.optimizeQuery }).history =
      { sampleState with selectedFeature := Feature.optimizeQuery }.history) ∧
    generateStructured { sampleEnv with structuredText := some "nonsense" } =
      Except.error "Failed to parse structured response from AI." :=
  ⟨⟨(claim2_amended { sampleEnv with structuredText := some "" } 3
      { sampleState with selectedFeature := Feature.optimizeQuery } ""
      rfl rfl (Or.inl rfl)).1,
    (claim2_amended { sampleEnv with structuredText := some "" } 3
      { sampleState with selectedFeature := Feature.optimizeQuery } ""
      rfl rfl (Or.inl rfl)).2 rfl⟩,
   (claim2_amended { sampleEnv with structuredText := some "nonsense" } 3
      { sampleState with selectedFeature := Feature.optimizeQuery } "nonsense"
      rfl rfl (Or.inr rfl)).1⟩

set_option maxRecDepth 20000 in
/-- C3 counterexample: with the non-blank context `Q`, the NL-to-SQL
system instruction is not prefixed with the context block (it does not
even contain the word `CONTEXT`), and the Design Schema user prompt
does not embed the context at all — so the Prompt Builder does not
prefix both prompt and instruction for every feature. -/
theorem claim3_counterexample :
    isBlank "Q" = false ∧
    List.isPrefixOf (contextPreamble "Q").data
      ((getPrompts Feature.nlToSql.name "d" "i" "Q").systemInstruction).data = false ∧
    strIncludes ((getPrompts Feature.nlToSql.name "d" "i" "Q").systemInstruction)
      "CONTEXT" = false ∧
    strIncludes ((getPrompts Feature.designSchema.name "d" "i" "Q").userPrompt)
      "Q" = false := by
  exact ⟨by decide, by decide, by decide, by decide⟩

/-- C3 amended: for every feature and non-blank schema context, the
system instruction is never prefixed with a context block (it is the
same as in the empty-context build); for every feature except Design
Schema the user prompt alone is prefixed with the context block, with
the raw context embedded verbatim; the Design Schema user prompt gets
no context block. -/
theorem claim3_amended (f : Feature) (db input ctx : String)
    (h : isBlank ctx = false) :
    (getPrompts f.name db input ctx).systemInstruction =
      (getPrompts f.name db input "").systemInstruction ∧
    (f ≠ Feature.designSchema →
      (getPrompts f.name db input ctx).userPrompt =
        contextPreamble ctx ++ (getPrompts f.name db input "").userPrompt ∧
      strIncludes ((getPrompts f.name db input ctx).userPrompt) ctx = true) ∧
    (f = Feature.designSchema →
      (getPrompts f.name db input ctx).userPrompt =
        (getPrompts f.name db input "").userPrompt) := by
  cases f
  case designSchema =>
    exact ⟨rfl, fun hne => absurd rfl hne, fun _ => rfl⟩
  case nlToSql =>
    have heq : (getPrompts Feature.nlToSql.name db input ctx).userPrompt =
        contextPreamble ctx ++ (getPrompts Feature.nlToSql.name db input "").userPrompt := by
      simp [getPrompts, Feature.name, contextPreamble, isBlank, String.append_assoc]
    exact ⟨rfl, fun hne => ⟨heq, strIncludes_via_preamble ctx _ _ h heq⟩, fun he => by cases he⟩
  case optimizeQuery =>
    have heq : (getPrompts Feature.optimizeQuery.name db input ctx).userPrompt =
        contextPreamble ctx ++ (getPrompts Feature.optimizeQuery.name db input "").userPrompt := by
      simp [getPrompts, Feature.name, contextPreamble, isBlank, String.append_assoc]
    exact ⟨rfl, fun hne => ⟨heq, strIncludes_via_preamble ctx _ _ h heq⟩, fun he => by cases he⟩
  case explainSql =>
    have heq : (getPrompts Feature.explainSql.name db input ctx).userPrompt =
        contextPreamble ctx ++ (getPrompts Feature.explainSql.name db input "").userPrompt := by
      simp [getPrompts, Feature.name, contextPreamble, isBlank, String.append_assoc]
    exact ⟨rfl, fun hne => ⟨heq, strIncludes_via_preamble ctx _ _ h heq⟩, fun he => by cases he⟩
  case analyzeSuggest =>
    have heq : (getPrompts Feature.analyzeSuggest.name db input ctx).userPrompt =
        contextPreamble ctx ++ (getPrompts Feature.analyzeSuggest.name db input "").userPrompt := by
      simp [getPrompts, Feature.name, contextPreamble, isBlank, String.append_assoc]
    exact ⟨rfl, fun hne => ⟨heq, strIncludes_via_preamble ctx _ _ h heq⟩, fun he => by cases he⟩

/-- C3 amended witness: the NL-to-SQL build with context `Q`. -/
theorem claim3_amended_instance :
    (getPrompts Feature.nlToSql.name "d" "i" "Q").systemInstruction =
      (getPrompts Feature.nlToSql.name "d" "i" "").systemInstruction ∧
    (getPrompts Feature.nlToSql.name "d" "i" "Q").userPrompt =
      contextPreamble "Q" ++ (getPrompts Feature.nlToSql.name "d" "i" "").userPrompt ∧
    strIncludes ((getPrompts Feature.nlToSql.name "d" "i" "Q").userPrompt) "Q" = true :=
  ⟨(claim3_amended Feature.nlToSql "d" "i" "Q" (by decide)).1,
   ((claim3_amended Feature.nlToSql "d" "i" "Q" (by decide)).2.1 (by decide)).1,
   ((claim3_amended Feature.nlToSql "d" "i" "Q" (by decide)).2.1 (by decide)).2⟩

set_option maxRecDepth 20000 in
/-- C4 counterexample: for the Design Schema feature the built user
prompt does not contain the non-blank context `Z` at all, refuting the
claim for every feature. -/
theorem claim4_counterexample :
    isBlank "Z" = false ∧
    strIncludes ((getPrompts Feature.designSchema.name "MySQL" "hi" "Z").userPrompt)
      "Z" = false := by
  exact ⟨by decide, by decide⟩

/-- C4 amended: a blank schema context yields exactly the empty-context
build (no context block); a non-blank context is embedded verbatim in
the built user prompt for every feature except Design Schema, whose
prompt is always the bare template. -/
theorem claim4_amended (f : Feature) (db input ctx : String) :
    (isBlank ctx = true →
      getPrompts f.name db input ctx = getPrompts f.name db input "") ∧
    (isBlank ctx = false → f ≠ Feature.designSchema →
      strIncludes ((getPrompts f.name db input ctx).userPrompt) ctx = true) ∧
    ((getPrompts Feature.designSchema.name db input ctx).userPrompt =
      "Design a " ++ db ++ " schema for the following requirements: \"" ++ input ++ "\"") := by
  refine ⟨?_, ?_, rfl⟩
  · intro h
    cases f <;> simp [getPrompts, Feature.name, contextPreamble, h, isBlank_empty]
  · intro h hne
    cases f
    case designSchema => exact absurd rfl hne
    case nlToSql =>
      refine strIncludes_via_preamble ctx _
        ((getPrompts Feature.nlToSql.name db input "").userPrompt) h ?_
      simp [getPrompts, Feature.name, contextPreamble, isBlank, String.append_assoc]
    case optimizeQuery =>
      refine strIncludes_via_preamble ctx _
        ((getPrompts Feature.optimizeQuery.name db input "").userPrompt) h ?_
      simp [getPrompts, Feature.name, contextPreamble, isBlank, String.append_assoc]
    case explainSql =>
      refine strIncludes_via_preamble ctx _
        ((getPrompts Feature.explainSql.name db input "").userPrompt) h ?_
      simp [getPrompts, Feature.name, contextPreamble, isBlank, String.append_assoc]
    case analyzeSuggest =>
      refine strIncludes_via_preamble ctx _
        ((getPrompts Feature.analyzeSuggest.name db input "").userPrompt) h ?_
      simp [getPrompts, Feature.name, contextPreamble, isBlank, String.append_assoc]

/-- C4 amended witness: a whitespace-only context adds no block, and a
non-blank context appears verbatim in the Explain SQL prompt. -/
theorem claim4_amended_instance :
    getPrompts Feature.explainSql.name "d" "i" " " =
      getPrompts Feature.explainSql.name "d" "i" "" ∧
    strIncludes ((getPrompts Feature.explainSql.name "d" "i" "c").userPrompt) "c" = true :=
  ⟨(claim4_amended Feature.explainSql "d" "i" " ").1 (by decide),
   (claim4_amended Feature.explainSql "d" "i" "c").2.1 (by decide) (by decide)⟩

/-- A successful user-driven generation prepends an entry whose id is
the clock reading of the event, and leaves the loading flag cleared. -/
theorem applyEvent_ids (e : GenEvent) (s : AppState)
    (hl : s.loading = false) (hs : eventSucceeds e = true) :
    (applyEvent e s).history.map HistoryItem.id = e.now :: s.history.map HistoryItem.id ∧
    (applyEvent e s).loading = false := by
  have hb : isBlank e.input = false := by
    have := (Bool.and_eq_true _ _).mp hs
    simpa using this.1
  by_cases hf : e.feature = Feature.optimizeQuery
  · have hok := ((Bool.and_eq_true _ _).mp hs).2
    rw [if_pos hf] at hok
    cases hgen : generateStructured e.env with
    | error m => rw [hgen] at hok; simp at hok
    | ok r =>
      constructor <;>
        simp [applyEvent, generate, hb, hl, hf, hgen, addToHistory,
          saveHistoryToStorage, HistoryData.withId]
  · have hstream := ((Bool.and_eq_true _ _).mp hs).2
    rw [if_neg hf] at hstream
    have hi : e.env.initialized = true := ((Bool.and_eq_true _ _).mp hstream).1
    have hnf : e.env.streamFails = false := by
      have := ((Bool.and_eq_true _ _).mp hstream).2
      simpa using this
    constructor <;>
      simp [applyEvent, generate, hb, hl, hf, hi, hnf, generateStream,
        addToHistory, saveHistoryToStorage, HistoryData.withId]

/-- Over a run of successful generations, the history ids are exactly
the clock readings in reverse order of occurrence. -/
theorem runEvents_ids (es : List GenEvent) (s : AppState)
    (hl : s.loading = false) (hs : ∀ e ∈ es, eventSucceeds e = true) :
    (runEvents es s).history.map HistoryItem.id =
      (es.map GenEvent.now).reverse ++ s.history.map HistoryItem.id ∧
    (runEvents es s).loading = false := by
  induction es generalizing s with
  | nil => simpa [runEvents] using hl
  | cons e es ih =>
    have he := hs e (by simp)
    obtain ⟨h1, h2⟩ := applyEvent_ids e s hl he
    have hrun : runEvents (e :: es) s = runEvents es (applyEvent e s) := by
      simp [runEvents]
    obtain ⟨ih1, ih2⟩ := ih (applyEvent e s) h2 (fun x hx => hs x (by simp [hx]))
    rw [hrun]
    refine ⟨?_, ih2⟩
    rw [ih1, h1]
    simp [List.append_assoc]

/-- C5 counterexample: two successful generations within the same
millisecond (both `Date.now()` readings equal to 5) produce history
ids `[5, 5]`: the later entry's id is not strictly greater than the
earlier one's, refuting the unconditional strict-increase part of the
claim. -/
theorem claim5_counterexample :
    eventSucceeds { sampleEvent1 with now := 5 } = true ∧
    eventSucceeds { sampleEvent2 with now := 5 } = true ∧
    (runEvents [{ sampleEvent1 with now := 5 }, { sampleEvent2 with now := 5 }]
        sampleState).history.map HistoryItem.id = [5, 5] ∧
    ¬ List.Pairwise (· > ·)
      ((runEvents [{ sampleEvent1 with now := 5 }, { sampleEvent2 with now := 5 }]
        sampleState).history.map HistoryItem.id) := by
  exact ⟨by decide, by decide, by decide, by decide⟩

/-- C5 amended: starting from an empty history, after N successful
generations the history has length N and its ids are the generations'
clock readings newest-first (each new entry prepended); when those
`Date.now()` readings strictly increase, each entry's id is strictly
greater than the ids of all entries created before it (same-millisecond
generations receive equal, not strictly increasing, ids). -/
theorem claim5_history_accumulation (es : List GenEvent) (s : AppState)
    (hh : s.history = []) (hl : s.loading = false)
    (hs : ∀ e ∈ es, eventSucceeds e = true) :
    (runEvents es s).history.length = es.length ∧
    (runEvents es s).history.map HistoryItem.id = (es.map GenEvent.now).reverse ∧
    (List.Pairwise (· < ·) (es.map GenEvent.now) →
      List.Pairwise (· > ·) ((runEvents es s).history.map HistoryItem.id)) := by
  obtain ⟨hmap, -⟩ := runEvents_ids es s hl hs
  rw [hh] at hmap
  simp only [List.map_nil, List.append_nil] at hmap
  refine ⟨?_, hmap, ?_⟩
  · have := congrArg List.length hmap
    simpa using this
  · intro ht
    rw [hmap]
    exact List.pairwise_reverse.mpr (ht.imp fun h => h)

/-- C5 amended witness: two concrete successful generations at clock
readings 1 and 2. -/
theorem claim5_history_accumulation_instance :
    (runEvents [sampleEvent1, sampleEvent2] sampleState).history.length = 2 ∧
    (runEvents [sampleEvent1, sampleEvent2] sampleState).history.map HistoryItem.id =
      ([sampleEvent1, sampleEvent2].map GenEvent.now).reverse ∧
    List.Pairwise (· > ·)
      ((runEvents [sampleEvent1, sampleEvent2] sampleState).history.map HistoryItem.id) :=
  ⟨(claim5_history_accumulation [sampleEvent1, sampleEvent2] sampleState
      rfl rfl (by decide)).1,
   (claim5_history_accumulation [sampleEvent1, sampleEvent2] sampleState
      rfl rfl (by decide)).2.1,
   (claim5_history_accumulation [sampleEvent1, sampleEvent2] sampleState
      rfl rfl (by decide)).2.2 (by decide)⟩

end DbGuru
